import Mathlib

/-!
Shallow embedding of `src/modules/dumpers/page-content.dumper.ts`
(class `PageContentDumper`) from the parsed-osrs repository.

The dumper mirrors wiki pages to one JSON file per page.  External
collaborators (the wiki request client, `JSON.parse`/`JSON.stringify`,
the filesystem) are modelled operationally: the filesystem is an
association list from paths to raw file contents, the client is a
function giving the outcome of each successive content query of a call
together with the eventual result of the redirect-lookup promise, and
the observable behaviour of a call is an explicit event trace (logs,
queries issued, delays, writes).  The `while` retry loop, which need
not terminate for every client behaviour, is embedded with explicit
fuel: one unit of fuel is consumed per loop iteration, and running out
of fuel is reported as a distinguished outcome.
-/

namespace ParsedOsrs

/-- JSON values, as produced by `JSON.parse` and consumed by
`JSON.stringify`.  `null` doubles as the JavaScript `null` value that
`getPageFromId` returns for an absent record. -/
inductive Json where
  | null
  | bool (b : Bool)
  | num (n : Int)
  | str (s : String)
  | arr (elems : List Json)
  | obj (fields : List (String × Json))

/-- The keys of a JSON object (empty for non-objects). -/
def Json.keys : Json → List String
  | .obj fields => fields.map Prod.fst
  | _ => []

/-- The `parse` payload of a successful content-query response:
`title`, `revid`, `displaytitle`, `text['*']`, `wikitext['*']` and the
`properties` list of `{name, '*'}` pairs, as in the `WikiPageResponse`
interface of the source. -/
structure WikiPageResponse where
  title : String
  revid : Int
  displaytitle : String
  text : String
  wikitext : String
  properties : List (String × String)

/-- Outcome of one awaited `WikiRequestService.query` call.
`resolved none` models a promise that resolves successfully with a
falsy (empty) value, so that the source's `if (response) break`
truthiness test fails; `rejected429` models a rejection whose
`e.response?.status === 429`; `rejectedOther e` any other rejection. -/
inductive QueryOutcome where
  | resolved (response : Option WikiPageResponse)
  | rejected429
  | rejectedOther (e : String)

/-- Behaviour of the wiki request client during one
`dumpWikiPageById` call: the outcome of the i-th content query issued
by the call, and the value the `getRedirectsToPage` promise settles
with (`Except.error` models a rejected promise, which raises when
awaited). -/
structure WikiRequestClient where
  query : Nat → QueryOutcome
  redirectsResult : Except String (List Json)

/-- Observable events of a call, in order: log lines, network requests
issued, the awaiting of the redirect promise, `delay` suspensions and
file writes. -/
inductive Event where
  | log (msg : String)
  | warn (msg : String)
  | error (msg : String)
  | progress (i total : Nat)
  | queryIssued (pageId : Nat)
  | redirectIssued (pageId : Nat)
  | redirectAwaited (pageId : Nat)
  | delayed (ms : Nat)
  | wrote (path : String)
deriving DecidableEq, Repr

/-- The filesystem: an association list from paths to raw file
contents; the most recent write at a path shadows older entries. -/
abbrev Fs := List (String × String)

/-- `fs.existsSync`. -/
def existsSync (path : String) (fs : Fs) : Bool :=
  fs.any (fun entry => entry.1 == path)

/-- `fs.readFileSync` (the callers only read paths that exist). -/
def readFileSync (path : String) (fs : Fs) : String :=
  (((fs.find? (fun entry => entry.1 == path)).map Prod.snd).getD "")

/-- `fs.writeFileSync`. -/
def writeFileSync (path content : String) (fs : Fs) : Fs :=
  (path, content) :: fs

/-- Externally configured pieces of the environment: the resolved
`WIKI_PAGES_FOLDER` path constant and the platform `JSON.stringify`
and `JSON.parse` builtins (`parse` returns `none` when `JSON.parse`
would throw). -/
structure Env where
  wikiPagesFolder : String
  stringify : Json → String
  parse : String → Option Json

/-- `private readonly maxRetries = 5`. -/
def maxRetries : Nat := 5

/-- `private readonly delayBetweenRetries = 3000`. -/
def delayBetweenRetries : Nat := 3000

/-- `getPathFromPageId`: `` `${WIKI_PAGES_FOLDER}/${pageId}.json` ``. -/
def getPathFromPageId (env : Env) (pageId : Nat) : String :=
  env.wikiPagesFolder ++ "/" ++ toString pageId ++ ".json"

/-- The warning logged on a rate-limit rejection. -/
def rateLimitWarning : String :=
  s!"Rate limit exceeded, retrying in {delayBetweenRetries}ms..."

/-- How the `while (attempt < this.maxRetries)` loop was left. -/
inductive LoopExit where
  | success (r : WikiPageResponse)
  | fatalReturn (e : String)
  | exhausted
  | outOfFuel

/-- The retry loop of `dumpWikiPageById`, with explicit fuel (one unit
per iteration).  State: `attempt` is the counter of the source (only
incremented on a 429 rejection), `qIdx` counts queries issued so far.
A truthy response breaks out; a falsy resolved response re-enters the
loop with `attempt` unchanged; a 429 rejection warns, increments
`attempt` and suspends for `delayBetweenRetries`; any other rejection
logs the error and returns from the whole procedure. -/
def retryLoop (pageId : Nat) (query : Nat → QueryOutcome) :
    Nat → Nat → Nat → List Event × LoopExit
  | 0, _, _ => ([], .outOfFuel)
  | fuel + 1, attempt, qIdx =>
    if attempt < maxRetries then
      match query qIdx with
      | .resolved (some r) => ([.queryIssued pageId], .success r)
      | .resolved none =>
          let rest := retryLoop pageId query fuel attempt (qIdx + 1)
          (.queryIssued pageId :: rest.1, rest.2)
      | .rejected429 =>
          let rest := retryLoop pageId query fuel (attempt + 1) (qIdx + 1)
          (.queryIssued pageId :: .warn rateLimitWarning ::
            .delayed delayBetweenRetries :: rest.1, rest.2)
      | .rejectedOther e => ([.queryIssued pageId, .error e], .fatalReturn e)
    else ([], .exhausted)

/-- The `WikiPageWithContent` record assembled from a successful
response and the awaited redirects, field for field and in the field
order of the source object literal. -/
def assembleRecord (pageId : Nat) (result : WikiPageResponse)
    (redirects : List Json) : Json :=
  .obj [
    ("pageid", .num (pageId : Int)),
    ("pagename", .str result.title),
    ("title", .str result.displaytitle),
    ("displaytitle", .str result.displaytitle),
    ("revid", .num result.revid),
    ("redirects", .arr redirects),
    ("properties", .arr (result.properties.map
      (fun p => Json.obj [("name", .str p.1), ("value", .str p.2)]))),
    ("content", .str result.text),
    ("rawContent", .str result.wikitext)]

/-- How a `dumpWikiPageById` call ended: a normal return, a raised
(uncaught) exception, or fuel exhaustion of the embedded loop. -/
inductive DumpOutcome where
  | returned
  | raised (e : String)
  | outOfFuel
deriving DecidableEq, Repr

/-- Result of a `dumpWikiPageById` call: the filesystem afterwards,
the event trace, the outcome, and the record handed to
`JSON.stringify` when a write happened. -/
structure DumpResult where
  fs : Fs
  trace : List Event
  outcome : DumpOutcome
  written : Option Json

/-- `dumpWikiPageById(pageId)`.  Skip check first; then the redirect
lookup is initiated (not awaited); then the retry loop runs; on a
truthy response the redirect promise is awaited (raising if it was
rejected), the record is assembled and written. -/
def dumpWikiPageById (env : Env) (client : WikiRequestClient)
    (fuel : Nat) (fs : Fs) (pageId : Nat) : DumpResult :=
  let filePath := getPathFromPageId env pageId
  if existsSync filePath fs then
    ⟨fs, [.log s!"Page {pageId} already exists, skipping."], .returned, none⟩
  else
    let loopRun := retryLoop pageId client.query fuel 0 0
    let pre := Event.redirectIssued pageId :: loopRun.1
    match loopRun.2 with
    | .outOfFuel => ⟨fs, pre, .outOfFuel, none⟩
    | .fatalReturn _ => ⟨fs, pre, .returned, none⟩
    | .exhausted =>
        ⟨fs, pre ++
          [.error s!"Failed to fetch page {pageId} after {maxRetries} attempts"],
          .returned, none⟩
    | .success result =>
        match client.redirectsResult with
        | .error e => ⟨fs, pre ++ [.redirectAwaited pageId], .raised e, none⟩
        | .ok redirects =>
            let newPage := assembleRecord pageId result redirects
            ⟨writeFileSync (getPathFromPageId env pageId)
                (env.stringify newPage) fs,
              pre ++ [.redirectAwaited pageId,
                .wrote (getPathFromPageId env pageId)],
              .returned, some newPage⟩

/-- Result of a `getPageFromId` call: the returned value (`Json.null`
models the JavaScript `null` result) and the log events. -/
structure ReadResult where
  value : Json
  trace : List Event

/-- `getPageFromId(pageId)`: return `null` when no file exists;
otherwise read the file and `JSON.parse` it, returning the parsed
value, or warning and returning the initial `null` when parsing
throws.  Purely local: no query or redirect event is ever emitted. -/
def getPageFromId (env : Env) (fs : Fs) (pageId : Nat) : ReadResult :=
  let candidatePath := getPathFromPageId env pageId
  if existsSync candidatePath fs then
    let pageContent := readFileSync candidatePath fs
    match env.parse pageContent with
    | some v => ⟨v, []⟩
    | none => ⟨.null, [.warn "Page has invalid content"]⟩
  else
    ⟨.null, []⟩

/-- Result of the batch: final filesystem, concatenated trace, and the
per-page outcomes in processing order. -/
structure BatchResult where
  fs : Fs
  trace : List Event
  results : List (Nat × DumpOutcome)

/-- The body of the `for` loop of `dumpAllWikiPages`: every 10th index
logs a progress line, then the page is dumped, and a raised exception
is caught and logged as an error (the batch continues). -/
def batchLoop (env : Env) (clients : Nat → WikiRequestClient)
    (fuel total : Nat) : List Nat → Nat → Fs → BatchResult
  | [], _, fs => ⟨fs, [], []⟩
  | pageId :: rest, i, fs =>
    let progressEvents :=
      if i % 10 = 0 then [Event.progress i total] else []
    let r := dumpWikiPageById env (clients pageId) fuel fs pageId
    let caught : List Event :=
      match r.outcome with
      | .raised e => [.error e]
      | _ => []
    let restRun := batchLoop env clients fuel total rest (i + 1) r.fs
    ⟨restRun.fs,
      progressEvents ++ r.trace ++ caught ++ restRun.trace,
      (pageId, r.outcome) :: restRun.results⟩

/-- `dumpAllWikiPages()`: log, fetch the page list (modelled as the
list of its `pageid` fields, the only field the loop reads), process
it from index 0, and log completion.  `clients` gives the client
behaviour used when a given page id is dumped. -/
def dumpAllWikiPages (env : Env) (clients : Nat → WikiRequestClient)
    (fuel : Nat) (pages : List Nat) (fs : Fs) : BatchResult :=
  let run := batchLoop env clients fuel pages.length pages 0 fs
  ⟨run.fs,
    Event.log "Dump All Wiki Pages" ::
      (run.trace ++ [Event.log "Dump All Wiki Pages: Completed"]),
    run.results⟩

/-! ### Sample environments and client behaviours used in concrete statements -/

/-- A sample environment: a resolved pages folder, a stringify that
always produces `"rec"`, and a parse that always throws. -/
def sampleEnv : Env := ⟨"wiki-pages", fun _ => "rec", fun _ => none⟩

/-- A client whose content query always rejects with HTTP 429 and
whose redirect promise resolves with no redirects. -/
def c429 : WikiRequestClient := ⟨fun _ => .rejected429, .ok []⟩

/-- A client whose content query always resolves successfully with a
falsy (empty) response. -/
def emptyRespClient : WikiRequestClient := ⟨fun _ => .resolved none, .ok []⟩

/-- The successful response used in the record-shape scenario. -/
def fooResp : WikiPageResponse :=
  ⟨"Foo", 42, "FooDisp", "<p>x</p>", "x", [("a", "1")]⟩

/-- A client whose content query always succeeds with `fooResp` and
whose redirect promise resolves with one redirect reference. -/
def okClient : WikiRequestClient :=
  ⟨fun _ => .resolved (some fooResp), .ok [Json.str "R"]⟩

/-- Per-page client behaviours where dumping page 2 always raises
(its redirect promise rejects) and every other page succeeds. -/
def resilClients : Nat → WikiRequestClient :=
  fun p =>
    if p = 2 then ⟨fun _ => .resolved (some fooResp), .error "boom"⟩
    else okClient

/-! ### Helper lemmas -/

/-- When the record file exists the call is exactly the skip: log,
return, no event but the log, filesystem untouched. -/
theorem dump_skip_eq (env : Env) (client : WikiRequestClient)
    (fuel : Nat) (fs : Fs) (pageId : Nat)
    (h : existsSync (getPathFromPageId env pageId) fs = true) :
    dumpWikiPageById env client fuel fs pageId =
      ⟨fs, [.log s!"Page {pageId} already exists, skipping."], .returned, none⟩ := by
  unfold dumpWikiPageById
  simp [h]

/-- A client that always resolves with an empty (falsy) response
keeps the attempt counter at its initial value, so every unit of fuel
becomes one more issued query and the loop never exits. -/
theorem retryLoop_emptyResponse (pageId : Nat) (fuel : Nat) :
    ∀ attempt qIdx, attempt < maxRetries →
      retryLoop pageId (fun _ => QueryOutcome.resolved none) fuel attempt qIdx =
        (List.replicate fuel (Event.queryIssued pageId), .outOfFuel) := by
  induction fuel with
  | zero => intro a i _; rfl
  | succ n ih =>
      intro a i h
      simp [retryLoop, h, List.replicate_succ, ih a (i + 1) h]

/-! ### Claim theorems -/

/-- C4: for every page identifier, if a file already exists at the
page's storage location, `dumpWikiPageById` returns immediately with
the filesystem untouched and a trace consisting of the skip log line
only — in particular no content query and no redirect lookup is
issued (no network activity at all). -/
theorem dumpWikiPageById_skipExisting (env : Env)
    (client : WikiRequestClient) (fuel : Nat) (fs : Fs) (pageId : Nat)
    (h : existsSync (getPathFromPageId env pageId) fs = true) :
    dumpWikiPageById env client fuel fs pageId =
      ⟨fs, [.log s!"Page {pageId} already exists, skipping."], .returned, none⟩ :=
  dump_skip_eq env client fuel fs pageId h

/-- Witness for C4 at a concrete input: a filesystem already holding
the record of page 1 makes the call a pure skip. -/
theorem dumpWikiPageById_skipExisting_witness :
    dumpWikiPageById sampleEnv c429 6 [("wiki-pages/1.json", "rec")] 1 =
      ⟨[("wiki-pages/1.json", "rec")],
        [.log "Page 1 already exists, skipping."], .returned, none⟩ :=
  dumpWikiPageById_skipExisting sampleEnv c429 6
    [("wiki-pages/1.json", "rec")] 1 (by decide)

/-- C1 (the claim is violated by the code): a client whose content
query always resolves successfully with an empty (falsy) response
makes the `while (attempt < maxRetries)` loop run forever, because
the attempt counter is only incremented on a 429 rejection.  For
every amount of fuel, the call is still inside the loop and has
issued one content query per unit of fuel — so the number of issued
queries exceeds every bound (at fuel 6 the sixth query is already
issued) and the retry loop does not terminate, contradicting the
claimed bound of 5 attempts. -/
theorem dumpWikiPageById_emptyResponse_loopsForever (fuel : Nat) :
    dumpWikiPageById sampleEnv emptyRespClient fuel [] 1 =
      ⟨[], Event.redirectIssued 1 :: List.replicate fuel (Event.queryIssued 1),
        .outOfFuel, none⟩ := by
  have h := retryLoop_emptyResponse 1 fuel 0 0 (by decide)
  simp [dumpWikiPageById, existsSync, emptyRespClient, getPathFromPageId, h]

/-- C2: a client whose content query always rejects with a rate-limit
(429) error makes `dumpWikiPageById` (for a page whose file does not
exist) issue exactly 5 content queries with a 3000 ms suspension
between consecutive queries, write nothing, and end by logging the
distinct retry-exhausted failure line. -/
theorem dumpWikiPageById_rateLimited_fiveAttempts (env : Env)
    (rds : Except String (List Json)) (n : Nat) (fs : Fs) (pageId : Nat)
    (h : existsSync (getPathFromPageId env pageId) fs = false) :
    dumpWikiPageById env ⟨fun _ => .rejected429, rds⟩ (n + 6) fs pageId =
      ⟨fs,
        [.redirectIssued pageId,
          .queryIssued pageId, .warn rateLimitWarning, .delayed delayBetweenRetries,
          .queryIssued pageId, .warn rateLimitWarning, .delayed delayBetweenRetries,
          .queryIssued pageId, .warn rateLimitWarning, .delayed delayBetweenRetries,
          .queryIssued pageId, .warn rateLimitWarning, .delayed delayBetweenRetries,
          .queryIssued pageId, .warn rateLimitWarning, .delayed delayBetweenRetries,
          .error s!"Failed to fetch page {pageId} after {maxRetries} attempts"],
        .returned, none⟩ := by
  have hl : retryLoop pageId (fun _ => QueryOutcome.rejected429) (n + 6) 0 0 =
      ([.queryIssued pageId, .warn rateLimitWarning, .delayed delayBetweenRetries,
        .queryIssued pageId, .warn rateLimitWarning, .delayed delayBetweenRetries,
        .queryIssued pageId, .warn rateLimitWarning, .delayed delayBetweenRetries,
        .queryIssued pageId, .warn rateLimitWarning, .delayed delayBetweenRetries,
        .queryIssued pageId, .warn rateLimitWarning, .delayed delayBetweenRetries],
        .exhausted) := rfl
  simp [dumpWikiPageById, h, hl]

/-- Witness for C2 at a concrete input: page 1, empty filesystem,
always-429 client, fuel 0 + 6. -/
theorem dumpWikiPageById_rateLimited_fiveAttempts_witness :
    dumpWikiPageById sampleEnv ⟨fun _ => .rejected429, Except.ok []⟩ 6 [] 1 =
      ⟨[],
        [.redirectIssued 1,
          .queryIssued 1, .warn rateLimitWarning, .delayed delayBetweenRetries,
          .queryIssued 1, .warn rateLimitWarning, .delayed delayBetweenRetries,
          .queryIssued 1, .warn rateLimitWarning, .delayed delayBetweenRetries,
          .queryIssued 1, .warn rateLimitWarning, .delayed delayBetweenRetries,
          .queryIssued 1, .warn rateLimitWarning, .delayed delayBetweenRetries,
          .error "Failed to fetch page 1 after 5 attempts"],
        .returned, none⟩ :=
  dumpWikiPageById_rateLimited_fiveAttempts sampleEnv (Except.ok []) 0 [] 1
    (by decide)

/-- C7: a client whose content query rejects with a non-rate-limit
error on the first attempt makes `dumpWikiPageById` (for a page whose
file does not exist) issue exactly one content query, log the error
and return: no retry, no suspension, no file written, no exception
propagated. -/
theorem dumpWikiPageById_fatalNoRetry (env : Env)
    (client : WikiRequestClient) (fuel : Nat) (fs : Fs) (pageId : Nat)
    (e : String)
    (hex : existsSync (getPathFromPageId env pageId) fs = false)
    (hq : client.query 0 = .rejectedOther e)
    (hf : 0 < fuel) :
    dumpWikiPageById env client fuel fs pageId =
      ⟨fs, [.redirectIssued pageId, .queryIssued pageId, .error e],
        .returned, none⟩ := by
  obtain ⟨m, rfl⟩ : ∃ m, fuel = m + 1 :=
    ⟨fuel - 1, (Nat.succ_pred_eq_of_pos hf).symm⟩
  have hl : retryLoop pageId client.query (m + 1) 0 0 =
      ([.queryIssued pageId, .error e], .fatalReturn e) := by
    simp [retryLoop, hq, maxRetries]
  simp [dumpWikiPageById, hex, hl]

/-- Witness for C7 at a concrete input: a client rejecting with a 500
error on the first query. -/
theorem dumpWikiPageById_fatalNoRetry_witness :
    dumpWikiPageById sampleEnv ⟨fun _ => .rejectedOther "HTTP 500", Except.ok []⟩
        6 [] 1 =
      ⟨[], [.redirectIssued 1, .queryIssued 1, .error "HTTP 500"],
        .returned, none⟩ :=
  dumpWikiPageById_fatalNoRetry sampleEnv
    ⟨fun _ => .rejectedOther "HTTP 500", Except.ok []⟩ 6 [] 1 "HTTP 500"
    (by decide) rfl (by decide)

/-- C3 counterexample: at a concrete successful fetch (title "Foo",
revid 42, one property, for page 7 on an empty filesystem) the record
`dumpWikiPageById` persists has no field named `pageId`: the
identifier field of the object literal in the source is spelled
`pageid`.  This falsifies the claim's "the identifier field is named
pageId". -/
theorem persistedRecord_hasNoField_pageId :
    "pageId" ∉ Json.keys
        (((dumpWikiPageById sampleEnv okClient 1 [] 7).written).getD .null)
    ∧ "pageid" ∈ Json.keys
        (((dumpWikiPageById sampleEnv okClient 1 [] 7).written).getD .null) := by
  constructor <;> decide

/-- C3 as amended (identifier field named `pageid`, not `pageId`):
when the content query succeeds with title "Foo", revid 42,
properties `[{name:"a", *:"1"}]`, rendered text `<p>x</p>` and
wikitext "x", the record persisted (and handed to `JSON.stringify`)
equals `{pageid, pagename:"Foo", title:<displaytitle>,
displaytitle:<displaytitle>, revid:42, redirects:<resolved>,
properties:[{name:"a", value:"1"}], content:"<p>x</p>",
rawContent:"x"}`; both `title` and `displaytitle` hold the response's
`displaytitle`. -/
theorem dumpWikiPageById_recordShape (env : Env)
    (client : WikiRequestClient) (fs : Fs) (pageId : Nat)
    (d : String) (rds : List Json) (fuel : Nat)
    (hex : existsSync (getPathFromPageId env pageId) fs = false)
    (hq : client.query 0 =
      .resolved (some ⟨"Foo", 42, d, "<p>x</p>", "x", [("a", "1")]⟩))
    (hr : client.redirectsResult = .ok rds)
    (hf : 0 < fuel) :
    (dumpWikiPageById env client fuel fs pageId).written =
      some (Json.obj [
        ("pageid", .num (pageId : Int)),
        ("pagename", .str "Foo"),
        ("title", .str d),
        ("displaytitle", .str d),
        ("revid", .num 42),
        ("redirects", .arr rds),
        ("properties", .arr [Json.obj [("name", .str "a"), ("value", .str "1")]]),
        ("content", .str "<p>x</p>"),
        ("rawContent", .str "x")])
    ∧ (dumpWikiPageById env client fuel fs pageId).fs =
        writeFileSync (getPathFromPageId env pageId)
          (env.stringify
            (assembleRecord pageId ⟨"Foo", 42, d, "<p>x</p>", "x", [("a", "1")]⟩ rds))
          fs := by
  obtain ⟨m, rfl⟩ : ∃ m, fuel = m + 1 :=
    ⟨fuel - 1, (Nat.succ_pred_eq_of_pos hf).symm⟩
  have hl : retryLoop pageId client.query (m + 1) 0 0 =
      ([.queryIssued pageId],
        .success ⟨"Foo", 42, d, "<p>x</p>", "x", [("a", "1")]⟩) := by
    simp [retryLoop, hq, maxRetries]
  simp [dumpWikiPageById, hex, hl, hr, assembleRecord]

/-- Witness for the amended C3 at a concrete input: page 7, empty
filesystem, response with displaytitle "FooDisp" and one redirect. -/
theorem dumpWikiPageById_recordShape_witness :
    (dumpWikiPageById sampleEnv okClient 1 [] 7).written =
      some (Json.obj [
        ("pageid", .num 7),
        ("pagename", .str "Foo"),
        ("title", .str "FooDisp"),
        ("displaytitle", .str "FooDisp"),
        ("revid", .num 42),
        ("redirects", .arr [Json.str "R"]),
        ("properties", .arr [Json.obj [("name", .str "a"), ("value", .str "1")]]),
        ("content", .str "<p>x</p>"),
        ("rawContent", .str "x")])
    ∧ (dumpWikiPageById sampleEnv okClient 1 [] 7).fs =
        writeFileSync (getPathFromPageId sampleEnv 7)
          (sampleEnv.stringify
            (assembleRecord 7 ⟨"Foo", 42, "FooDisp", "<p>x</p>", "x", [("a", "1")]⟩
              [Json.str "R"]))
          [] :=
  dumpWikiPageById_recordShape sampleEnv okClient [] 7 "FooDisp"
    [Json.str "R"] 1 (by decide) rfl rfl (by decide)

/-- C5 counterexample: with a client that always rejects with a 429
rate limit, the first call persists nothing, so the second call of
the pair performs network I/O as well — it issues a content query —
contradicting "calling dumpWikiPageById twice in sequence performs
network I/O only during the first call". -/
theorem dumpWikiPageById_secondCall_networkIO :
    Event.queryIssued 1 ∈
      (dumpWikiPageById sampleEnv c429 6
        (dumpWikiPageById sampleEnv c429 6 [] 1).fs 1).trace := by
  decide

/-- C5 as amended (restricted to a first call that persisted the
record, the only case the code guarantees): whenever the page's file
exists after the first call, the second call is exactly the skip — it
performs no network I/O (its trace is the skip log line only, with no
query and no redirect lookup) and leaves the filesystem exactly as
the first call left it, so the persisted record after the two calls
equals the record persisted after the first call alone. -/
theorem dumpWikiPageById_idempotentOnceWritten (env : Env)
    (c1 c2 : WikiRequestClient) (f1 f2 : Nat) (fs : Fs) (pageId : Nat)
    (h : existsSync (getPathFromPageId env pageId)
      ((dumpWikiPageById env c1 f1 fs pageId).fs) = true) :
    dumpWikiPageById env c2 f2 ((dumpWikiPageById env c1 f1 fs pageId).fs) pageId =
      ⟨(dumpWikiPageById env c1 f1 fs pageId).fs,
        [.log s!"Page {pageId} already exists, skipping."], .returned, none⟩ :=
  dump_skip_eq env c2 f2 ((dumpWikiPageById env c1 f1 fs pageId).fs) pageId h

/-- Witness for the amended C5 at a concrete input: the first call
with the succeeding client writes page 1's file, and the second call
is the pure skip. -/
theorem dumpWikiPageById_idempotentOnceWritten_witness :
    dumpWikiPageById sampleEnv okClient 1
        ((dumpWikiPageById sampleEnv okClient 1 [] 1).fs) 1 =
      ⟨(dumpWikiPageById sampleEnv okClient 1 [] 1).fs,
        [.log "Page 1 already exists, skipping."], .returned, none⟩ :=
  dumpWikiPageById_idempotentOnceWritten sampleEnv okClient okClient 1 1 [] 1
    (by decide)

/-- C8: `getPageFromId` returns the null (absent) result when no file
exists at the page's storage location, and when a file exists whose
contents fail to deserialize it logs a warning and also returns the
null result instead of raising.  In both cases the result is exact —
the trace holds at most the warning, so no network event occurs. -/
theorem getPageFromId_absentOrCorrupt (env : Env) (fs : Fs) (pageId : Nat) :
    (existsSync (getPathFromPageId env pageId) fs = false →
      getPageFromId env fs pageId = ⟨Json.null, []⟩)
    ∧ (existsSync (getPathFromPageId env pageId) fs = true →
        env.parse (readFileSync (getPathFromPageId env pageId) fs) = none →
        getPageFromId env fs pageId =
          ⟨Json.null, [.warn "Page has invalid content"]⟩) := by
  constructor
  · intro h
    simp [getPageFromId, h]
  · intro h hp
    simp [getPageFromId, h, hp]

/-- Witness for C8 at concrete inputs: page 1 with no file returns
null silently; page 1 with a file whose contents `JSON.parse` rejects
returns null with the warning. -/
theorem getPageFromId_absentOrCorrupt_witness :
    getPageFromId sampleEnv [] 1 = ⟨Json.null, []⟩
    ∧ getPageFromId sampleEnv [("wiki-pages/1.json", "not json")] 1 =
        ⟨Json.null, [.warn "Page has invalid content"]⟩ :=
  ⟨(getPageFromId_absentOrCorrupt sampleEnv [] 1).1 (by decide),
    (getPageFromId_absentOrCorrupt sampleEnv
      [("wiki-pages/1.json", "not json")] 1).2 (by decide) rfl⟩

/-- C10: `getPageFromId` applies no shape validation beyond
deserialization: whenever the stored file's contents parse to a JSON
value `v` — whether or not `v` looks like a WikiPage record — the
call returns `v` itself with no warning logged. -/
theorem getPageFromId_noShapeValidation (env : Env) (fs : Fs)
    (pageId : Nat) (v : Json)
    (hex : existsSync (getPathFromPageId env pageId) fs = true)
    (hp : env.parse (readFileSync (getPathFromPageId env pageId) fs) = some v) :
    getPageFromId env fs pageId = ⟨v, []⟩ := by
  simp [getPageFromId, hex, hp]

/-- Witness for C10 at a concrete input: a file containing `42`
parses to the number 42, which is returned as-is (not `null`, no
warning), even though it is not a WikiPage record. -/
theorem getPageFromId_noShapeValidation_witness :
    getPageFromId
        ⟨"wiki-pages", fun _ => "",
          fun s => if s = "42" then some (.num 42) else none⟩
        [("wiki-pages/7.json", "42")] 7 =
      ⟨Json.num 42, []⟩ :=
  getPageFromId_noShapeValidation
    ⟨"wiki-pages", fun _ => "",
      fun s => if s = "42" then some (.num 42) else none⟩
    [("wiki-pages/7.json", "42")] 7 (Json.num 42) (by decide) (by rfl)

/-- The retry loop emits only query, warning, delay and error-log
events: in particular it never issues nor awaits the redirect
lookup. -/
theorem retryLoop_no_redirect_events (pageId : Nat) (q : Nat → QueryOutcome)
    (fuel : Nat) :
    ∀ attempt qIdx,
      Event.redirectIssued pageId ∉ (retryLoop pageId q fuel attempt qIdx).1 ∧
      Event.redirectAwaited pageId ∉ (retryLoop pageId q fuel attempt qIdx).1 := by
  induction fuel with
  | zero => intro a i; simp [retryLoop]
  | succ n ih =>
      intro a i
      by_cases h : a < maxRetries
      · cases hq : q i with
        | resolved r =>
            cases r with
            | none => simp [retryLoop, h, hq, ih a (i + 1)]
            | some resp => simp [retryLoop, h, hq]
        | rejected429 => simp [retryLoop, h, hq, ih (a + 1) (i + 1)]
        | rejectedOther e => simp [retryLoop, h, hq]
      · simp [retryLoop, h]

/-- C9: for every page whose record file does not exist and every
client behaviour, `dumpWikiPageById` issues the redirect lookup
exactly once, as the very first event — before the retry loop begins
and regardless of the outcome of the content fetch — and on the
fetch-failure (fatal return) and retry-exhausted paths the lookup is
never awaited, so its result is discarded while the redirect network
request has still been triggered. -/
theorem dumpWikiPageById_redirectLookupOnce (env : Env)
    (client : WikiRequestClient) (fuel : Nat) (fs : Fs) (pageId : Nat)
    (hex : existsSync (getPathFromPageId env pageId) fs = false) :
    ((dumpWikiPageById env client fuel fs pageId).trace.count
        (.redirectIssued pageId) = 1)
    ∧ ((dumpWikiPageById env client fuel fs pageId).trace.head? =
        some (.redirectIssued pageId))
    ∧ (∀ e, (retryLoop pageId client.query fuel 0 0).2 = .fatalReturn e →
        Event.redirectAwaited pageId ∉
          (dumpWikiPageById env client fuel fs pageId).trace)
    ∧ ((retryLoop pageId client.query fuel 0 0).2 = .exhausted →
        Event.redirectAwaited pageId ∉
          (dumpWikiPageById env client fuel fs pageId).trace) := by
  have hno := retryLoop_no_redirect_events pageId client.query fuel 0 0
  rcases hL : retryLoop pageId client.query fuel 0 0 with ⟨tr, ex⟩
  rw [hL] at hno
  cases ex with
  | success r =>
      rcases hr : client.redirectsResult with e | rds
      · simp [dumpWikiPageById, hex, hL, hr, List.count_cons, List.count_append,
          List.count_eq_zero.mpr hno.1]
      · simp [dumpWikiPageById, hex, hL, hr, List.count_cons, List.count_append,
          List.count_eq_zero.mpr hno.1]
  | fatalReturn e =>
      simp [dumpWikiPageById, hex, hL, List.count_cons,
        List.count_eq_zero.mpr hno.1, hno.2]
  | exhausted =>
      simp [dumpWikiPageById, hex, hL, List.count_cons, List.count_append,
        List.count_eq_zero.mpr hno.1, hno.2]
  | outOfFuel =>
      simp [dumpWikiPageById, hex, hL, List.count_cons,
        List.count_eq_zero.mpr hno.1, hno.2]

/-- Witness for C9 at a concrete input: page 3, empty filesystem,
always-rate-limited client (a retry-exhausted run). -/
theorem dumpWikiPageById_redirectLookupOnce_witness :
    ((dumpWikiPageById sampleEnv c429 6 [] 3).trace.count
        (.redirectIssued 3) = 1)
    ∧ ((dumpWikiPageById sampleEnv c429 6 [] 3).trace.head? =
        some (.redirectIssued 3))
    ∧ (∀ e, (retryLoop 3 c429.query 6 0 0).2 = .fatalReturn e →
        Event.redirectAwaited 3 ∉
          (dumpWikiPageById sampleEnv c429 6 [] 3).trace)
    ∧ ((retryLoop 3 c429.query 6 0 0).2 = .exhausted →
        Event.redirectAwaited 3 ∉
          (dumpWikiPageById sampleEnv c429 6 [] 3).trace) :=
  dumpWikiPageById_redirectLookupOnce sampleEnv c429 6 [] 3 (by decide)

/-- A dump whose redirect promise was rejected raises at the await:
the call issues one successful query, awaits the rejected promise,
and propagates the exception without writing anything. -/
theorem dump_raises (env : Env) (client : WikiRequestClient)
    (fuel : Nat) (fs : Fs) (pageId : Nat) (r : WikiPageResponse) (e : String)
    (hex : existsSync (getPathFromPageId env pageId) fs = false)
    (hq : client.query 0 = .resolved (some r))
    (hr : client.redirectsResult = .error e)
    (hf : 0 < fuel) :
    dumpWikiPageById env client fuel fs pageId =
      ⟨fs, [.redirectIssued pageId, .queryIssued pageId, .redirectAwaited pageId],
        .raised e, none⟩ := by
  obtain ⟨m, rfl⟩ : ∃ m, fuel = m + 1 :=
    ⟨fuel - 1, (Nat.succ_pred_eq_of_pos hf).symm⟩
  have hl : retryLoop pageId client.query (m + 1) 0 0 =
      ([.queryIssued pageId], .success r) := by
    simp [retryLoop, hq, maxRetries]
  simp [dumpWikiPageById, hex, hl, hr]

/-- A dump whose redirect promise was rejected never reaches the
write, so it leaves the filesystem untouched on every path. -/
theorem dump_fs_of_redirectsError (env : Env) (client : WikiRequestClient)
    (fuel : Nat) (fs : Fs) (pageId : Nat) (e : String)
    (hr : client.redirectsResult = .error e) :
    (dumpWikiPageById env client fuel fs pageId).fs = fs := by
  unfold dumpWikiPageById
  cases hex : existsSync (getPathFromPageId env pageId) fs
  · rcases hL : retryLoop pageId client.query fuel 0 0 with ⟨tr, ex⟩
    cases ex <;> simp [hex, hL, hr]
  · simp [hex]

/-- A dump either leaves the filesystem untouched or performs exactly
one write, at the dumped page's own path. -/
theorem dump_fs_cases (env : Env) (client : WikiRequestClient)
    (fuel : Nat) (fs : Fs) (pageId : Nat) :
    (dumpWikiPageById env client fuel fs pageId).fs = fs ∨
    ∃ s, (dumpWikiPageById env client fuel fs pageId).fs =
      writeFileSync (getPathFromPageId env pageId) s fs := by
  unfold dumpWikiPageById
  cases hex : existsSync (getPathFromPageId env pageId) fs
  · rcases hL : retryLoop pageId client.query fuel 0 0 with ⟨tr, ex⟩
    cases ex with
    | success r =>
        rcases hr : client.redirectsResult with e | rds
        · left; simp [hex, hL, hr]
        · right
          exact ⟨env.stringify (assembleRecord pageId r rds),
            by simp [hex, hL, hr]⟩
    | fatalReturn e => left; simp [hex, hL]
    | exhausted => left; simp [hex, hL]
    | outOfFuel => left; simp [hex, hL]
  · left; simp [hex]

/-- The batch records one outcome per page, in list order. -/
theorem batchLoop_results_fst (env : Env) (clients : Nat → WikiRequestClient)
    (fuel total : Nat) :
    ∀ (pages : List Nat) (i : Nat) (fs : Fs),
      ((batchLoop env clients fuel total pages i fs).results.map Prod.fst) = pages := by
  intro pages
  induction pages with
  | nil => intro i fs; rfl
  | cons p rest ih => intro i fs; simp [batchLoop, ih]

/-- The batch's final filesystem is the left fold of the per-page
dumps over the page list (the loop index only affects logging). -/
theorem batchLoop_fs_foldl (env : Env) (clients : Nat → WikiRequestClient)
    (fuel total : Nat) :
    ∀ (pages : List Nat) (i : Nat) (fs : Fs),
      (batchLoop env clients fuel total pages i fs).fs =
        pages.foldl (fun a p => (dumpWikiPageById env (clients p) fuel a p).fs) fs := by
  intro pages
  induction pages with
  | nil => intro i fs; rfl
  | cons p rest ih => intro i fs; simp [batchLoop, ih]

/-- Folding a step that fixes `k` over a list equals folding it over
the list with `k` filtered out. -/
theorem foldl_filter_ne (step : Fs → Nat → Fs) (k : Nat)
    (hk : ∀ a, step a k = a) :
    ∀ (pages : List Nat) (fs : Fs),
      pages.foldl step fs = (pages.filter (fun p => p != k)).foldl step fs := by
  intro pages
  induction pages with
  | nil => intro fs; rfl
  | cons p rest ih =>
      intro fs
      by_cases h : p = k
      · subst h; simp [List.filter_cons, hk, ih]
      · simp [List.filter_cons, h, ih]

/-- `existsSync` after one write. -/
theorem existsSync_cons (q a b : String) (fs : Fs) :
    existsSync q ((a, b) :: fs) = (a == q || existsSync q fs) := rfl

/-- When page `k` always raises (rejected redirect promise, first
query successful) and no other listed page's path collides with
`k`'s, the batch catches the exception and logs its error. -/
theorem batchLoop_error_of_raise (env : Env) (clients : Nat → WikiRequestClient)
    (fuel total : Nat) (k : Nat) (e : String) (r : WikiPageResponse)
    (hk : (clients k).redirectsResult = .error e)
    (hq : (clients k).query 0 = .resolved (some r))
    (hf : 0 < fuel) :
    ∀ (pages : List Nat) (i : Nat) (fs : Fs), k ∈ pages →
      (∀ j ∈ pages, getPathFromPageId env j = getPathFromPageId env k → j = k) →
      existsSync (getPathFromPageId env k) fs = false →
      Event.error e ∈ (batchLoop env clients fuel total pages i fs).trace := by
  intro pages
  induction pages with
  | nil => intro i fs hmem; exact absurd hmem (List.not_mem_nil k)
  | cons p rest ih =>
      intro i fs hmem hpaths hex
      by_cases hpk : p = k
      · subst hpk
        have hd := dump_raises env (clients p) fuel fs p r e hex hq hk hf
        simp [batchLoop, hd]
      · have hmem' : k ∈ rest := by
          rcases List.mem_cons.mp hmem with h | h
          · exact absurd h.symm hpk
          · exact h
        have hpj : getPathFromPageId env p ≠ getPathFromPageId env k :=
          fun hcontra => hpk (hpaths p (List.mem_cons_self p rest) hcontra)
        have hex' : existsSync (getPathFromPageId env k)
            (dumpWikiPageById env (clients p) fuel fs p).fs = false := by
          rcases dump_fs_cases env (clients p) fuel fs p with h | ⟨s, h⟩
          · rw [h]; exact hex
          · rw [h, writeFileSync, existsSync_cons]
            simp [hex, hpj]
        have hrest := ih (i + 1) ((dumpWikiPageById env (clients p) fuel fs p).fs)
          hmem' (fun j hj => hpaths j (List.mem_cons_of_mem p hj)) hex'
        simp [batchLoop, List.mem_append, hrest]

/-- C6: for every page list and every identifier `k` whose single-page
dump always raises (its redirect promise rejects; its first content
query succeeds so the await is reached; its file is initially absent,
and — as the source's one-file-per-identifier layout guarantees — no
other listed identifier shares `k`'s storage path),
`dumpAllWikiPages` still records an outcome for all identifiers in
list order, catches the exception and logs `k`'s failure as an error,
and the final filesystem — hence every other page's persisted record
— is exactly the one produced with `k` absent from the list. -/
theorem dumpAllWikiPages_batchResilience (env : Env)
    (clients : Nat → WikiRequestClient) (fuel : Nat) (pages : List Nat)
    (fs0 : Fs) (k : Nat) (e : String)
    (hk : (clients k).redirectsResult = .error e)
    (hpaths : ∀ j ∈ pages, getPathFromPageId env j = getPathFromPageId env k → j = k)
    (hmem : k ∈ pages)
    (hex : existsSync (getPathFromPageId env k) fs0 = false)
    (hq : ∃ r, (clients k).query 0 = .resolved (some r))
    (hf : 0 < fuel) :
    ((dumpAllWikiPages env clients fuel pages fs0).results.map Prod.fst = pages)
    ∧ ((dumpAllWikiPages env clients fuel pages fs0).fs =
        (dumpAllWikiPages env clients fuel (pages.filter (fun p => p != k)) fs0).fs)
    ∧ Event.error e ∈ (dumpAllWikiPages env clients fuel pages fs0).trace := by
  obtain ⟨r, hq⟩ := hq
  refine ⟨?_, ?_, ?_⟩
  · simp [dumpAllWikiPages, batchLoop_results_fst]
  · have hstep : ∀ a, (dumpWikiPageById env (clients k) fuel a k).fs = a :=
      fun a => dump_fs_of_redirectsError env (clients k) fuel a k e hk
    simp only [dumpAllWikiPages, batchLoop_fs_foldl]
    exact foldl_filter_ne _ k hstep pages fs0
  · have hmemT := batchLoop_error_of_raise env clients fuel pages.length k e r
      hk hq hf pages 0 fs0 hmem hpaths hex
    simp [dumpAllWikiPages, List.mem_append, hmemT]

/-- Witness for C6 at a concrete input: pages `[1, 2]` where page 2's
dump always raises; the batch still processes both, logs the error,
and the files equal those of the batch over `[1]` alone. -/
theorem dumpAllWikiPages_batchResilience_witness :
    ((dumpAllWikiPages sampleEnv resilClients 1 [1, 2] []).results.map Prod.fst = [1, 2])
    ∧ ((dumpAllWikiPages sampleEnv resilClients 1 [1, 2] []).fs =
        (dumpAllWikiPages sampleEnv resilClients 1
          ([1, 2].filter (fun p => p != 2)) []).fs)
    ∧ Event.error "boom" ∈ (dumpAllWikiPages sampleEnv resilClients 1 [1, 2] []).trace :=
  dumpAllWikiPages_batchResilience sampleEnv resilClients 1 [1, 2] [] 2 "boom"
    rfl (by decide) (by decide) (by decide) ⟨fooResp, rfl⟩ (by decide)

end ParsedOsrs
